import Mathlib

/-!
# Verification of `fix_sql.py`

A shallow embedding of the single-file Python utility `fix_sql.py`, which
rewrites triple-quoted `SELECT ... FROM ...` string literals in source files
into a canonical indentation style via one regex substitution, together with
theorems settling the specification's claims about it.

The Python program is:

* `fix_sql_formatting(content)`: applies
  `re.sub(pattern, replace_projections, content, flags=re.MULTILINE | re.DOTALL)`
  with
  `pattern = r'("""\s*\n\s*SELECT\s*\n\s*)(.*?)(\s*\n\s*FROM\s+)([^"]*?)(\s*\n\s*""")'`
  and `replace_projections` rebuilding each match as
  `select_part + 12 spaces + projections-rejoined + from_part + "\n" + 12 spaces
   + stripped-table + end_part`.
* `main()`: CLI wrapper — usage check, read file, transform, write file,
  catch-all `except` printing `Error: ...` and exiting 1.

The regex engine is modelled as a backtracking matcher over `List Char` whose
alternative order reproduces Python's leftmost match with greedy (`*`, `+`)
and lazy (`*?`) quantifier semantics for this pattern.
-/

namespace FixSql

/-- Python's `\s` character class for `str` patterns (and the set stripped by
`str.strip()`): ASCII whitespace plus the Unicode whitespace characters. -/
def isPySpace (c : Char) : Bool :=
  c == ' ' || c == '\t' || c == '\n' || c == '\x0d' || c == '\x0b' || c == '\x0c' ||
  c == '\x1c' || c == '\x1d' || c == '\x1e' || c == '\x1f' || c == '\x85' || c == '\xa0' ||
  c == ' ' || (0x2000 ≤ c.toNat && c.toNat ≤ 0x200a) ||
  c == ' ' || c == ' ' || c == ' ' || c == ' ' || c == '　'

/-- One primitive of the (concatenation-only) regex: a literal string, a single
character from a class, a greedy star over a class (`\s*`), a lazy star over a
class (`.*?`, `[^"]*?`), or a capture-group boundary recording the current
position. -/
inductive Item where
  | lit : List Char → Item
  | one : (Char → Bool) → Item
  | starG : (Char → Bool) → Item
  | starL : (Char → Bool) → Item
  | mark : Nat → Item

/-- Backtracking matcher. Alternatives are tried in Python's order: a greedy
star first consumes another class character when it can, and falls back to the
continuation on failure; a lazy star first tries the continuation and only then
consumes. `marks` records, for each group boundary, the length of the remaining
input at that boundary. The match is unanchored at the right end: an exhausted
pattern succeeds. Fuel bounds the recursion depth; every call either consumes
input or shortens the item list, so `input.length + items.length + 1` suffices. -/
def mrun : Nat → List Item → List Char → List (Nat × Nat) → Option (List (Nat × Nat))
  | 0, _, _, _ => none
  | _ + 1, [], _, marks => some marks
  | f + 1, Item.lit l :: rest, input, marks =>
    if l.isPrefixOf input then mrun f rest (input.drop l.length) marks else none
  | f + 1, Item.one p :: rest, input, marks =>
    match input with
    | [] => none
    | c :: cs => if p c then mrun f rest cs marks else none
  | f + 1, Item.starG p :: rest, input, marks =>
    match input with
    | [] => mrun f rest [] marks
    | c :: cs =>
      if p c then
        match mrun f (Item.starG p :: rest) cs marks with
        | some r => some r
        | none => mrun f rest (c :: cs) marks
      else mrun f rest (c :: cs) marks
  | f + 1, Item.starL p :: rest, input, marks =>
    match mrun f rest input marks with
    | some r => some r
    | none =>
      match input with
      | [] => none
      | c :: cs => if p c then mrun f (Item.starL p :: rest) cs marks else none
  | f + 1, Item.mark n :: rest, input, marks => mrun f rest input ((n, input.length) :: marks)

/-- The three-double-quote delimiter. -/
def tripleQuote : List Char := ['"', '"', '"']

/-- The regex
`("""\s*\n\s*SELECT\s*\n\s*)(.*?)(\s*\n\s*FROM\s+)([^"]*?)(\s*\n\s*""")`
compiled with `re.DOTALL` (so `.` matches newlines; `re.MULTILINE` is inert —
the pattern has no `^`/`$`). `mark i` delimits the five capture groups:
group `i` spans boundary `i-1` to boundary `i`. `\s+` is `\s` then `\s*`,
which tries the same lengths in the same (longest-first) order. -/
def sqlItems : List Item :=
  [Item.mark 0,
   Item.lit tripleQuote,
   Item.starG isPySpace, Item.lit ['\n'], Item.starG isPySpace,
   Item.lit ['S', 'E', 'L', 'E', 'C', 'T'],
   Item.starG isPySpace, Item.lit ['\n'], Item.starG isPySpace,
   Item.mark 1,
   Item.starL (fun _ => true),
   Item.mark 2,
   Item.starG isPySpace, Item.lit ['\n'], Item.starG isPySpace,
   Item.lit ['F', 'R', 'O', 'M'],
   Item.one isPySpace, Item.starG isPySpace,
   Item.mark 3,
   Item.starL (fun c => c != '"'),
   Item.mark 4,
   Item.starG isPySpace, Item.lit ['\n'], Item.starG isPySpace,
   Item.lit tripleQuote,
   Item.mark 5]

/-- Look up the recorded remaining-input length for boundary `n`. -/
def lookupMark (marks : List (Nat × Nat)) (n : Nat) : Nat :=
  match marks with
  | [] => 0
  | (k, v) :: rest => if k = n then v else lookupMark rest n

/-- The segment of `s` between boundary positions recorded as remaining
lengths `b` (start) and `e` (end), with `b ≥ e`. -/
def segment (s : List Char) (b e : Nat) : List Char :=
  (s.drop (s.length - b)).take (b - e)

/-- Attempt a match of the SQL pattern at the start of `s` (Python tries each
position left to right; this is one position). On success returns the five
capture groups and the total number of characters consumed. -/
def matchAt (s : List Char) : Option (List Char × List Char × List Char × List Char × List Char × Nat) :=
  match mrun (s.length + 32) sqlItems s [] with
  | none => none
  | some marks =>
    let b0 := lookupMark marks 0
    let b1 := lookupMark marks 1
    let b2 := lookupMark marks 2
    let b3 := lookupMark marks 3
    let b4 := lookupMark marks 4
    let b5 := lookupMark marks 5
    some (segment s b0 b1, segment s b1 b2, segment s b2 b3,
          segment s b3 b4, segment s b4 b5, s.length - b5)

/-- Python `str.strip()`: drop leading and trailing whitespace. -/
def pyStrip (s : List Char) : List Char :=
  ((s.dropWhile isPySpace).reverse.dropWhile isPySpace).reverse

/-- Python `str.split(',')`: split at every comma; `"".split(',') == [""]`,
adjacent commas yield empty pieces. The result is always nonempty. -/
def splitComma : List Char → List (List Char)
  | [] => [[]]
  | c :: cs =>
    if c == ',' then [] :: splitComma cs
    else
      match splitComma cs with
      | h :: t => (c :: h) :: t
      | [] => [[c]]

/-- Python `sep.join(list)`. -/
def joinSep (sep : List Char) : List (List Char) → List Char
  | [] => []
  | [x] => x
  | x :: y :: t => x ++ sep ++ joinSep sep (y :: t)

/-- Twelve spaces, the canonical projection indentation. -/
def indent12 : List Char :=
  [' ', ' ', ' ', ' ', ' ', ' ', ' ', ' ', ' ', ' ', ' ', ' ']

/-- The separator `',\n            '` (comma, newline, 12 spaces). -/
def projSep : List Char := ',' :: '\n' :: indent12

/-- The replacement callback `replace_projections(match)` of `fix_sql.py`:
strip the projections, split on commas, strip each term, rejoin with
`projSep`; strip the table text and re-indent it; reassemble
`select_part + 12 spaces + projections + from_part + "\n" + 12 spaces + table
+ end_part`. -/
def replace_projections (g1 g2 g3 g4 g5 : List Char) : List Char :=
  let projections := pyStrip g2
  let table_part := pyStrip g4
  let proj_list := (splitComma projections).map pyStrip
  let formatted_projections := joinSep projSep proj_list
  let formatted_table_part := '\n' :: (indent12 ++ table_part)
  g1 ++ indent12 ++ formatted_projections ++ g3 ++ formatted_table_part ++ g5

/-- One piece of the output of `re.sub`: either a run of characters copied
verbatim from the input, or a matched region together with its replacement. -/
inductive Piece where
  | copied : List Char → Piece
  | replaced : List Char → List Char → Piece
deriving DecidableEq

/-- The input characters a piece accounts for. -/
def pieceIn : Piece → List Char
  | Piece.copied s => s
  | Piece.replaced o _ => o

/-- The output characters a piece contributes. -/
def pieceOut : Piece → List Char
  | Piece.copied s => s
  | Piece.replaced _ r => r

/-- The scan of `re.sub`: at each position try the pattern; on failure copy one
character and move on; on a match emit the replacement and resume after the
match (a zero-width match — impossible for this pattern, which needs a literal
`"""` — would emit the replacement and copy one character, as Python does).
Fuel `cs.length + 1` always suffices since every step consumes input. -/
def subPieces : Nat → List Char → List Piece
  | 0, cs => if cs.isEmpty then [] else [Piece.copied cs]
  | _ + 1, [] => []
  | f + 1, c :: cs =>
    match matchAt (c :: cs) with
    | none => Piece.copied [c] :: subPieces f cs
    | some (g1, g2, g3, g4, g5, len) =>
      if len = 0 then
        Piece.replaced [] (replace_projections g1 g2 g3 g4 g5) :: Piece.copied [c] ::
          subPieces f cs
      else
        Piece.replaced ((c :: cs).take len) (replace_projections g1 g2 g3 g4 g5) ::
          subPieces f ((c :: cs).drop len)

/-- `re.sub(pattern, replace_projections, content, ...)` on character lists. -/
def fixSqlList (cs : List Char) : List Char :=
  ((subPieces (cs.length + 1) cs).map pieceOut).flatten

/-- `fix_sql_formatting(content)` of `fix_sql.py`. -/
def fix_sql_formatting (s : String) : String :=
  String.mk (fixSqlList s.data)

/-- `true` when the pattern matches at no position of `cs`: the text contains
no triple-quoted `SELECT ... FROM ...` region. -/
def noMatchesFrom : List Char → Bool
  | [] => true
  | c :: cs => (matchAt (c :: cs)).isNone && noMatchesFrom cs

/-- `o` and `r` are the consumed text and the replacement of a genuine match of
the pattern at the start of `s`. -/
def IsMatchRepl (s o r : List Char) : Prop :=
  ∃ g1 g2 g3 g4 g5 len,
    matchAt s = some (g1, g2, g3, g4, g5, len) ∧ o = s.take len ∧
      r = replace_projections g1 g2 g3 g4 g5

/-- Modelled from the spec: the matching rule as the specification words it —
an opening triple-quote, *optional* whitespace (no newline required), the
keyword `SELECT`, a non-greedy arbitrary run up to the first `FROM`, the
keyword `FROM`, a double-quote-free table run, whitespace, and the closing
triple-quote. This is compared against the source pattern `sqlItems`, which
instead demands `\s*\n\s*` (a mandatory newline) on both sides of `SELECT`. -/
def claimItems : List Item :=
  [Item.lit tripleQuote,
   Item.starG isPySpace,
   Item.lit ['S', 'E', 'L', 'E', 'C', 'T'],
   Item.starL (fun _ => true),
   Item.lit ['F', 'R', 'O', 'M'],
   Item.starL (fun c => c != '"'),
   Item.starG isPySpace,
   Item.lit tripleQuote]

/-- Whether the spec-worded rule (`claimItems`) matches at the start of `s`. -/
def claimRuleMatches (s : List Char) : Bool :=
  (mrun (s.length + 16) claimItems s []).isSome

/-! ## CLI driver model

`main()` of `fix_sql.py`, lines 34–54: usage check on `len(sys.argv)`, then a
`try` block that opens and reads the file, applies `fix_sql_formatting`,
writes the result back, and prints a confirmation; any exception is caught,
printed with an `Error: ` prefix, and the process exits 1. The effectful parts
are modelled by an environment giving the outcome of the read (content, or the
exception's message) and of the write (`none`, or the exception's message). -/

/-- Exit code, lines printed to stdout, and the completed write (filename and
content), if any. On a write failure no statement is made about partial file
contents (the script uses no atomic-write strategy), so `written` is `none`. -/
structure MainResult where
  exitCode : Nat
  printed : List String
  written : Option (String × String)

/-- Outcomes of the two I/O operations of a run: the read returns content or
raises with a message; the write either succeeds or raises with a message. -/
structure Env where
  readResult : Except String String
  writeError : Option String

/-- The usage line printed on a wrong argument count. -/
def usageMessage : String := "Usage: python3 fix_sql.py <filename>"

/-- `main()` of `fix_sql.py`. `argv` is the full `sys.argv`, program name
included, so the valid shape is exactly two elements. -/
def main (argv : List String) (env : Env) : MainResult :=
  match argv with
  | [_, filename] =>
    match env.readResult with
    | Except.error e => ⟨1, ["Error: " ++ e], none⟩
    | Except.ok content =>
      match env.writeError with
      | some e => ⟨1, ["Error: " ++ e], none⟩
      | none =>
        ⟨0, ["Fixed SQL formatting in " ++ filename],
         some (filename, fix_sql_formatting content)⟩
  | _ => ⟨1, [usageMessage], none⟩

/-! ## Concrete texts used by the claims -/

/-- The end-to-end scenario input of spec §8. -/
def e2eInput : String :=
  "var q = \"\"\"\n    SELECT\n        Id, Name,  Email\n    FROM  Users\n    \"\"\";\n"

/-- The output the spec's end-to-end scenario displays (the `SELECT` line is
gone and every projection sits at 12 spaces). -/
def specExpectedOutput : String :=
  "var q = \"\"\"\n            Id,\n            Name,\n            Email\n    FROM\n            Users\n    \"\"\";\n"

/-- What the code actually produces on `e2eInput`: the `SELECT` line survives,
the first projection lands at 8 + 12 = 20 spaces, `FROM` keeps its two captured
trailing spaces, and `Users` is re-indented to 12 spaces. -/
def e2eActualOutput : String :=
  "var q = \"\"\"\n    SELECT\n                    Id,\n            Name,\n            Email\n    FROM  \n            Users\n    \"\"\";\n"

/-- A region of the shape the spec's matching-rule sentence describes, but with
no newline between the opening delimiter and `SELECT`. -/
def noNewlineInput : String := "\"\"\"SELECT a,b\nFROM t\n\"\"\""

/-- The same query with the newlines the source pattern demands. -/
def newlineInput : String := "\"\"\"\nSELECT\na,b\nFROM t\n\"\"\""

/-- The rewritten form of `newlineInput`. -/
def newlineOutput : String :=
  "\"\"\"\nSELECT\n            a,\n            b\nFROM \n            t\n\"\"\""

/-- A matched region whose projection text is `a, b,c`. -/
def projInput : String := "\"\"\"\nSELECT\na, b,c\nFROM t\n\"\"\""

/-- The rewritten form of `projInput`: `a`, `b`, `c` each on its own line at
12 spaces. -/
def projOutput : String :=
  "\"\"\"\nSELECT\n            a,\n            b,\n            c\nFROM \n            t\n\"\"\""

/-- A projection containing a comma inside parentheses. -/
def coalesceInput : String := "\"\"\"\nSELECT\nCOALESCE(a, b)\nFROM t\n\"\"\""

/-- Its rewritten form: the parenthesised comma is split like any other. -/
def coalesceOutput : String :=
  "\"\"\"\nSELECT\n            COALESCE(a,\n            b)\nFROM \n            t\n\"\"\""

/-- A projection term with interior (non-boundary) whitespace. -/
def interiorWsInput : String := "\"\"\"\nSELECT\nx   y, z\nFROM t\n\"\"\""

/-- Its rewritten form: the interior run `x   y` survives verbatim. -/
def interiorWsOutput : String :=
  "\"\"\"\nSELECT\n            x   y,\n            z\nFROM \n            t\n\"\"\""

end FixSql

/-! ## Theorems -/

set_option maxRecDepth 100000
set_option maxHeartbeats 4000000

namespace FixSql

theorem subPieces_pieceIn_flatten (f : Nat) :
    ∀ cs : List Char, cs.length < f → ((subPieces f cs).map pieceIn).flatten = cs := by
  induction f with
  | zero => intro cs h; exact absurd h (Nat.not_lt_zero _)
  | succ f ih =>
    intro cs hlen
    cases cs with
    | nil => rfl
    | cons c cs =>
      have hcs : cs.length < f := by
        simp only [List.length_cons] at hlen
        omega
      cases hm : matchAt (c :: cs) with
      | none =>
        simp [subPieces, hm, pieceIn, ih cs hcs]
      | some v =>
        obtain ⟨g1, g2, g3, g4, g5, len⟩ := v
        by_cases h0 : len = 0
        · simp [subPieces, hm, h0, pieceIn, ih cs hcs]
        · have hdrop : ((c :: cs).drop len).length < f := by
            simp only [List.length_drop, List.length_cons]
            omega
          simp [subPieces, hm, h0, pieceIn, ih _ hdrop]

theorem subPieces_replaced_isMatch (f : Nat) :
    ∀ cs o r : List Char, Piece.replaced o r ∈ subPieces f cs →
      ∃ s, s <:+ cs ∧ IsMatchRepl s o r := by
  induction f with
  | zero =>
    intro cs o r hmem
    by_cases hE : cs.isEmpty <;> simp [subPieces, hE] at hmem
  | succ f ih =>
    intro cs o r hmem
    cases cs with
    | nil => simp [subPieces] at hmem
    | cons c cs =>
      cases hm : matchAt (c :: cs) with
      | none =>
        simp only [subPieces, hm, List.mem_cons] at hmem
        rcases hmem with h | h
        · exact absurd h (by simp)
        · obtain ⟨s, hs, hmr⟩ := ih cs o r h
          exact ⟨s, hs.trans (List.suffix_cons c cs), hmr⟩
      | some v =>
        obtain ⟨g1, g2, g3, g4, g5, len⟩ := v
        by_cases h0 : len = 0
        · subst h0
          simp [subPieces, hm] at hmem
          rcases hmem with ⟨ho, hr⟩ | h
          · subst ho; subst hr
            exact ⟨c :: cs, List.suffix_refl _, g1, g2, g3, g4, g5, 0, hm, rfl, rfl⟩
          · obtain ⟨s, hs, hmr⟩ := ih cs o r h
            exact ⟨s, hs.trans (List.suffix_cons c cs), hmr⟩
        · simp [subPieces, hm, h0] at hmem
          rcases hmem with ⟨ho, hr⟩ | h
          · subst ho; subst hr
            exact ⟨c :: cs, List.suffix_refl _, g1, g2, g3, g4, g5, len, hm, rfl, rfl⟩
          · obtain ⟨s, hs, hmr⟩ := ih _ o r h
            exact ⟨s, hs.trans (List.drop_suffix _ _), hmr⟩

theorem subPieces_of_noMatch (f : Nat) :
    ∀ cs : List Char, cs.length < f → noMatchesFrom cs = true →
      ((subPieces f cs).map pieceOut).flatten = cs := by
  induction f with
  | zero => intro cs h _; exact absurd h (Nat.not_lt_zero _)
  | succ f ih =>
    intro cs hlen hnm
    cases cs with
    | nil => rfl
    | cons c cs =>
      simp only [noMatchesFrom, Bool.and_eq_true] at hnm
      obtain ⟨h1, h2⟩ := hnm
      cases hm : matchAt (c :: cs) with
      | some v => rw [hm] at h1; simp [Option.isNone] at h1
      | none =>
        have hcs : cs.length < f := by
          simp only [List.length_cons] at hlen
          omega
        simp [subPieces, hm, pieceOut, ih cs hcs h2]

theorem fix_eq_self_of_noMatch (s : String) (h : noMatchesFrom s.data = true) :
    fix_sql_formatting s = s := by
  obtain ⟨cs⟩ := s
  show String.mk (fixSqlList cs) = String.mk cs
  rw [fixSqlList, subPieces_of_noMatch (cs.length + 1) cs (Nat.lt_succ_self _) h]

/-- C1: the Formatter is not idempotent. On the spec's own end-to-end scenario
input — which contains a matching triple-quoted `SELECT ... FROM` region — a
second application indents the first projection a further 12 spaces and
inserts a further indented blank line after `FROM`, so
`Formatter(Formatter(text)) ≠ Formatter(text)` there. -/
theorem idempotence_counterexample :
    fix_sql_formatting (fix_sql_formatting e2eInput) ≠ fix_sql_formatting e2eInput := by
  decide

/-- C1 (amended): the Formatter is idempotent on every text in which the
pattern matches nowhere (there it is the identity), but not on texts with a
matching region: each application grows the indentation. -/
theorem idempotent_on_unmatched (s : String) (h : noMatchesFrom s.data = true) :
    fix_sql_formatting (fix_sql_formatting s) = fix_sql_formatting s := by
  have hs := fix_eq_self_of_noMatch s h
  rw [hs, hs]

theorem idempotent_on_unmatched_witness :
    noMatchesFrom ("hello world").data = true ∧
      fix_sql_formatting (fix_sql_formatting "hello world") = fix_sql_formatting "hello world" :=
  ⟨by decide, idempotent_on_unmatched "hello world" (by decide)⟩

/-- C2: on the spec's end-to-end scenario input the code does not produce the
output displayed in the spec: the spec's output drops the `SELECT` line and
puts the first projection at 12 spaces, while the code keeps `select_part`
(hence the `SELECT` line and the captured 8-space indent, to which it appends
12 more spaces) and keeps the two captured spaces after `FROM`. -/
theorem end_to_end_spec_output_counterexample :
    fix_sql_formatting e2eInput ≠ specExpectedOutput := by
  decide

/-- C2 (amended): on the end-to-end scenario input the code produces
`e2eActualOutput`: the `SELECT` line unchanged, `Id,` at 20 spaces, `Name,`
and `Email` at 12 spaces, `FROM` with its two trailing spaces kept, `Users`
re-indented to 12 spaces, and all surrounding text unchanged. -/
theorem end_to_end_actual_output :
    fix_sql_formatting e2eInput = e2eActualOutput := by
  decide

/-- C3: the matching rule does not accept a region with no newline between the
opening delimiter and `SELECT`: `noNewlineInput` satisfies the spec-worded
rule (`claimRuleMatches`), yet the source pattern matches at no position of it
and the Formatter leaves it unchanged instead of rewriting it. -/
theorem matching_rule_counterexample :
    claimRuleMatches noNewlineInput.data = true ∧
      noMatchesFrom noNewlineInput.data = true ∧
      fix_sql_formatting noNewlineInput = noNewlineInput := by
  refine ⟨by decide, by decide, by decide⟩

/-- C3 (amended): the rule requires at least one newline between the opening
delimiter and `SELECT` and between `SELECT` and the projection list (the
pattern reads `\s*\n\s*` on both sides of `SELECT`, not `\s*`); with those
newlines present the region is matched and rewritten. -/
theorem matching_requires_newline :
    (matchAt newlineInput.data).isSome = true ∧
      fix_sql_formatting newlineInput = newlineOutput ∧
      newlineInput ≠ newlineOutput := by
  refine ⟨by decide, by decide, by decide⟩

/-- C4: on any text in which the pattern matches at no position — including
malformed input such as unbalanced triple-quotes — the Formatter returns the
text exactly (and, being a total function, raises nothing). -/
theorem noop_on_nonmatching (s : String) (h : noMatchesFrom s.data = true) :
    fix_sql_formatting s = s :=
  fix_eq_self_of_noMatch s h

theorem noop_on_nonmatching_witness :
    noMatchesFrom ("var q = \"\"\"\n    SELECT\n        Id\n    FROM Users\n").data = true ∧
      fix_sql_formatting "var q = \"\"\"\n    SELECT\n        Id\n    FROM Users\n" =
        "var q = \"\"\"\n    SELECT\n        Id\n    FROM Users\n" :=
  ⟨by decide,
   noop_on_nonmatching "var q = \"\"\"\n    SELECT\n        Id\n    FROM Users\n" (by decide)⟩

/-- C5: the frame property of the substitution. The scan decomposes the input
into pieces whose input sides concatenate back to the input; the output is the
concatenation of the pieces' output sides, where a copied piece contributes
its input characters verbatim (definitionally, `pieceOut (copied xs) = xs`)
and every replaced piece is a genuine match of the pattern at a suffix of the
input. Hence every character outside the matched regions reaches the output
unchanged and in order. -/
theorem substitution_frame (s : String) :
    ((subPieces (s.data.length + 1) s.data).map pieceIn).flatten = s.data ∧
      fix_sql_formatting s =
        String.mk (((subPieces (s.data.length + 1) s.data).map pieceOut).flatten) ∧
      (∀ o r, Piece.replaced o r ∈ subPieces (s.data.length + 1) s.data →
        ∃ t, t <:+ s.data ∧ IsMatchRepl t o r) :=
  ⟨subPieces_pieceIn_flatten _ _ (Nat.lt_succ_self _), rfl,
   fun o r hmem => subPieces_replaced_isMatch _ _ o r hmem⟩

theorem substitution_frame_witness :
    ∃ t, t <:+ newlineInput.data ∧ IsMatchRepl t newlineInput.data newlineOutput.data :=
  (substitution_frame newlineInput).2.2 newlineInput.data newlineOutput.data (by decide)

/-- C6: projection splitting. The projection text `a, b,c` is split at its
commas, each term is trimmed, and the terms are rejoined with
comma-newline-12-spaces; inside a full matched region this lists `a`, `b`,
`c` each on its own line indented 12 spaces. -/
theorem projection_splitting :
    joinSep projSep ((splitComma (pyStrip ("a, b,c").data)).map pyStrip) =
        ("a,\n            b,\n            c").data ∧
      fix_sql_formatting projInput = projOutput := by
  refine ⟨by decide, by decide⟩

/-- C7: invocation with an argument count other than two (program name plus
one filename) prints the usage line to stdout and exits with status 1, with no
file read or write — the result is the same for every I/O environment and
records no write. -/
theorem usage_error (argv : List String) (env : Env) (h : argv.length ≠ 2) :
    main argv env = ⟨1, [usageMessage], none⟩ := by
  cases argv with
  | nil => rfl
  | cons a t =>
    cases t with
    | nil => rfl
    | cons b t2 =>
      cases t2 with
      | nil => exact absurd rfl h
      | cons c t3 => rfl

theorem usage_error_witness :
    ([] : List String).length ≠ 2 ∧
      main [] ⟨Except.ok "x", none⟩ = ⟨1, [usageMessage], none⟩ :=
  ⟨by decide, usage_error [] ⟨Except.ok "x", none⟩ (by decide)⟩

/-- C8: every failure of the read or of the write is caught: its message is
printed prefixed with `Error: ` and the exit status is 1; when both succeed
the run prints the confirmation naming the file and writes the transformed
content. -/
theorem io_error_handling (p fname : String) (env : Env) :
    (∀ e, env.readResult = Except.error e →
        main [p, fname] env = ⟨1, ["Error: " ++ e], none⟩) ∧
      (∀ c e, env.readResult = Except.ok c → env.writeError = some e →
        main [p, fname] env = ⟨1, ["Error: " ++ e], none⟩) ∧
      (∀ c, env.readResult = Except.ok c → env.writeError = none →
        main [p, fname] env =
          ⟨0, ["Fixed SQL formatting in " ++ fname], some (fname, fix_sql_formatting c)⟩) := by
  obtain ⟨r, w⟩ := env
  refine ⟨?_, ?_, ?_⟩
  · intro e he
    simp only at he
    subst he
    rfl
  · intro c e hr hw
    simp only at hr hw
    subst hr; subst hw
    rfl
  · intro c hr hw
    simp only at hr hw
    subst hr; subst hw
    rfl

theorem io_error_handling_witness :
    main ["python3", "file.cs"] ⟨Except.error "boom", none⟩ =
      ⟨1, ["Error: " ++ "boom"], none⟩ :=
  (io_error_handling "python3" "file.cs" ⟨Except.error "boom", none⟩).1 "boom" rfl

/-- C9: the transform is total — for every file content the success path of
`main` completes with exit code 0 and writes `fix_sql_formatting content`, so
the error branch can only be reached by I/O failures; in particular an empty
captured projection splits into the single empty term (`splitComma [] = [[]]`)
and formats to the empty projection list rather than failing. -/
theorem formatter_totality (p fname content : String) :
    (main [p, fname] ⟨Except.ok content, none⟩).exitCode = 0 ∧
      (main [p, fname] ⟨Except.ok content, none⟩).written =
        some (fname, fix_sql_formatting content) ∧
      splitComma [] = [[]] ∧
      joinSep projSep ((splitComma (pyStrip [])).map pyStrip) = [] :=
  ⟨rfl, rfl, rfl, rfl⟩

/-- C10: comma splitting is context-blind — the comma inside
`COALESCE(a, b)` is a split point like any other, and a comma-free piece is
trimmed only at its two ends, so the interior run of `x   y` is preserved
verbatim. -/
theorem comma_split_context_blind :
    fix_sql_formatting coalesceInput = coalesceOutput ∧
      fix_sql_formatting interiorWsInput = interiorWsOutput := by
  refine ⟨by decide, by decide⟩

end FixSql
